import Mathlib

/-!
Verification of the bi-directional repository synchronization engine
(`src/modules/sync_engine/src/sync.rs`).

The engine is embedded shallowly:

* `git2` primitives (branch resolution, remote lookup, fetch, merge-base,
  ahead/behind counting) are external library calls; each open repository is
  modelled as a `Repo` record of oracles with explicit failure (`none` /
  `false`), so a theorem quantifying over `Repo` quantifies over every
  possible behaviour of the underlying object database.
* The persisted state file `gitph_sync_state.json` is modelled by an explicit
  `Option FileContent` value threaded through the functions that read or
  write it (`none` = file absent); `serde_json` parsing is modelled by the
  file content being either `parsable st` or `unparsable`.
* Commit identifiers (`git2::Oid`) are modelled by their hex string
  representation, so `Oid::to_string` is the identity.
* `println!` logging is dropped; `async` is irrelevant to the sequential
  data flow and dropped.
-/

/-- Commit identifier (`git2::Oid`), modelled by its hex string form. -/
abbrev Oid := String

/-- Hexadecimal digit test used by the model of `Oid::from_str`. -/
def isHexChar (c : Char) : Bool :=
  c.isDigit
    || (decide (97 ≤ c.toNat) && decide (c.toNat ≤ 102))
    || (decide (65 ≤ c.toNat) && decide (c.toNat ≤ 70))

/-- Model of `git2::Oid::from_str`: succeeds exactly on hex strings of at
most 40 characters, failing otherwise (the fallible parse the source hits
with `?` in `find_sync_base`). -/
def oidFromStr (s : String) : Option Oid :=
  if s.length ≤ 40 ∧ s.data.all isHexChar then some s else none

/-- The persistent state model (`struct SyncState`, sync.rs lines 27-31):
the last known synchronized commit hashes, serialized to/from JSON. -/
structure SyncState where
  last_source_synced_oid : Option String
  last_target_synced_oid : Option String
deriving DecidableEq

/-- `#[derive(Default)]` for `SyncState`: both fields `None`. -/
def SyncState.default : SyncState := ⟨none, none⟩

/-- Model of an open `git2::Repository`, exposing exactly the operations the
sync engine calls on it.  Each field is the oracle for one `git2` call:

* `branches name` — `find_branch(name, BranchType::Local)` followed by
  `get().peel_to_commit().id()`; `none` models any failure on that chain.
* `remotes name` — whether `find_remote(name)` succeeds.
* `fetchOk name` — whether `remote.fetch(&["main"], None, None)` on the
  remote called `name` succeeds.
* `mergeBase a b` — `merge_base(a, b)`; `none` models `Err`.
* `graphAheadBehind a b` — `graph_ahead_behind(a, b)`, the `(ahead, behind)`
  pair; `none` models `Err`. -/
structure Repo where
  branches : String → Option Oid
  remotes : String → Bool
  fetchOk : String → Bool
  mergeBase : Oid → Oid → Option Oid
  graphAheadBehind : Oid → Oid → Option (Nat × Nat)

/-- Content of the state file as `serde_json::from_str::<SyncState>` sees
it: either it parses to a `SyncState` or it is present but unparsable. -/
inductive FileContent where
  | parsable (st : SyncState)
  | unparsable
deriving DecidableEq

/-- The state-loading step of `SyncEngine::new` (sync.rs lines 61-66): if
the state file exists its text is read and parsed with `?` on the parse
(so an unparsable file is an error); if it does not exist the default
state is used. -/
def loadState (file : Option FileContent) : Except String SyncState :=
  match file with
  | some (FileContent.parsable st) => Except.ok st
  | some FileContent.unparsable => Except.error "failed to parse sync state file"
  | none => Except.ok SyncState.default

/-- The sync engine (`struct SyncEngine`, sync.rs lines 35-44): both open
repositories plus the in-memory state.  The `state_path` field is not
modelled separately; the file it points at is the explicit `Option
FileContent` value threaded through `run`. -/
structure SyncEngine where
  source_repo : Repo
  target_repo : Repo
  state : SyncState

/-- `SyncEngine::new` (sync.rs lines 52-74): opens both repositories
(each `Option Repo` argument is the result of `Repository::open`, `none`
modelling failure propagated by `?`) and loads the persistent state from
the given file content. -/
def SyncEngine.new (source_repo target_repo : Option Repo)
    (file : Option FileContent) : Except String SyncEngine :=
  match source_repo with
  | none => Except.error "failed to open source repository"
  | some src =>
    match target_repo with
    | none => Except.error "failed to open target repository"
    | some tgt =>
      match loadState file with
      | Except.error e => Except.error e
      | Except.ok st => Except.ok ⟨src, tgt, st⟩

/-- `SyncEngine::fetch_repo` (sync.rs lines 151-158): look up the remote
literally named "origin" (`?` on failure), then fetch the "main" branch
from it (`?` on failure). -/
def fetch_repo (repo : Repo) : Except String Unit :=
  if repo.remotes "origin" then
    if repo.fetchOk "origin" then Except.ok ()
    else Except.error "fetch from origin failed"
  else Except.error "remote origin not found"

/-- `SyncEngine::find_sync_base` (sync.rs lines 166-185): if both saved
OIDs are present, parse them and return the merge base of the two *saved*
commits, mapping a merge-base failure to an error about the saved OIDs;
otherwise (first run or state lost) fall back to the merge base of the
current heads. -/
def SyncEngine.find_sync_base (eng : SyncEngine) (source_oid target_oid : Oid) :
    Except String Oid :=
  match eng.state.last_source_synced_oid, eng.state.last_target_synced_oid with
  | some s_oid_str, some t_oid_str =>
    match oidFromStr s_oid_str with
    | none => Except.error "invalid saved source oid"
    | some last_source_oid =>
      match oidFromStr t_oid_str with
      | none => Except.error "invalid saved target oid"
      | some last_target_oid =>
        match eng.source_repo.mergeBase last_source_oid last_target_oid with
        | some base => Except.ok base
        | none =>
          Except.error ("Could not find merge base for saved OIDs "
            ++ s_oid_str ++ " and " ++ t_oid_str
            ++ ". Have the branches been rebased?")
  | _, _ =>
    match eng.source_repo.mergeBase source_oid target_oid with
    | some base => Except.ok base
    | none => Except.error "no merge base between current heads"

/-- `SyncEngine::save_state` (sync.rs lines 189-195): serialize the
in-memory state and write it to the state file, producing a parsable file
holding exactly that state. -/
def save_state (st : SyncState) : Option FileContent :=
  some (FileContent.parsable st)

/-- The observable outcome of one `SyncEngine::run` call: the returned
`SyncResult<String>`, the engine state afterwards (`self.state`), the
state file on disk afterwards, and the list of commits actually
transferred by a convergence action.  The source never transfers any
commit (both apply branches are `TODO` comments that "simulate success"),
so `applied` is `[]` on every path. -/
structure RunResult where
  result : Except String String
  state : SyncState
  file : Option FileContent
  applied : List Oid

/-- `SyncEngine::run` (sync.rs lines 84-148).  Phase 1 fetches both
repositories (`?` on failure); phase 2 resolves both "main" heads (`?`),
resolves the sync base and computes the ahead counts against it (`?`);
phase 3 branches on `(source_ahead, target_ahead)`:

* both positive — return the divergence error without touching anything;
* source ahead — set both state fields to the source head, persist, and
  return the forward-sync message (no commits are actually applied);
* target ahead — symmetrically with the target head;
* neither — return the in-sync message without touching anything. -/
def SyncEngine.run (eng : SyncEngine) (file : Option FileContent) : RunResult :=
  match fetch_repo eng.source_repo with
  | Except.error e => ⟨Except.error e, eng.state, file, []⟩
  | Except.ok () =>
  match fetch_repo eng.target_repo with
  | Except.error e => ⟨Except.error e, eng.state, file, []⟩
  | Except.ok () =>
  match eng.source_repo.branches "main" with
  | none => ⟨Except.error "source branch main not found", eng.state, file, []⟩
  | some source_head =>
  match eng.target_repo.branches "main" with
  | none => ⟨Except.error "target branch main not found", eng.state, file, []⟩
  | some target_head =>
  match eng.find_sync_base source_head target_head with
  | Except.error e => ⟨Except.error e, eng.state, file, []⟩
  | Except.ok base_oid =>
  match eng.source_repo.graphAheadBehind source_head base_oid with
  | none => ⟨Except.error "graph ahead-behind failed on source", eng.state, file, []⟩
  | some (source_ahead, _) =>
  match eng.target_repo.graphAheadBehind target_head base_oid with
  | none => ⟨Except.error "graph ahead-behind failed on target", eng.state, file, []⟩
  | some (target_ahead, _) =>
  if source_ahead > 0 ∧ target_ahead > 0 then
    ⟨Except.error "Repositories have diverged! Manual intervention required.",
      eng.state, file, []⟩
  else if source_ahead > 0 then
    let st : SyncState := ⟨some source_head, some source_head⟩
    ⟨Except.ok "Sync from source to target not yet implemented.",
      st, save_state st, []⟩
  else if target_ahead > 0 then
    let st : SyncState := ⟨some target_head, some target_head⟩
    ⟨Except.ok "Sync from target to source not yet implemented.",
      st, save_state st, []⟩
  else
    ⟨Except.ok "Repositories are already in sync.", eng.state, file, []⟩

/-- The environment `handle_run_sync` runs in: `Repository::open` by path,
and the state file associated with each source repository path. -/
structure World where
  openRepo : String → Option Repo
  stateFile : String → Option FileContent

/-- `handle_run_sync` (sync.rs lines 204-215): the public entry point.
Arity other than 2 fails with the usage error before anything else is
done; otherwise the engine is constructed (initialization errors are
wrapped) and `run` is executed, its state-file write landing at the
source path.  The returned pair is the `Result<String, String>` and the
state-file map afterwards. -/
def handle_run_sync (w : World) (args : List String) :
    Except String String × (String → Option FileContent) :=
  match args with
  | [source_path, target_path] =>
    match SyncEngine.new (w.openRepo source_path) (w.openRepo target_path)
        (w.stateFile source_path) with
    | Except.error e =>
      (Except.error ("Failed to initialize sync engine: " ++ e), w.stateFile)
    | Except.ok eng =>
      let r := eng.run (w.stateFile source_path)
      (r.result, fun p => if p = source_path then r.file else w.stateFile p)
  | _ =>
    (Except.error "Usage: sync-run <path_to_source_repo> <path_to_target_repo>",
      w.stateFile)

/-! Concrete fixtures used by witnesses and counterexamples. -/

/-- A source repository whose "main" head `bb` is one commit ahead of the
common base `aa`. -/
def repoFwdSrc : Repo where
  branches := fun n => if n = "main" then some "bb" else none
  remotes := fun n => n = "origin"
  fetchOk := fun _ => true
  mergeBase := fun a b => if a = "bb" ∧ b = "aa" then some "aa"
    else if a = b then some a else none
  graphAheadBehind := fun a b => if a = "bb" ∧ b = "aa" then some (1, 0)
    else if a = b then some (0, 0) else none

/-- A target repository sitting exactly at the common base `aa`. -/
def repoFwdTgt : Repo where
  branches := fun n => if n = "main" then some "aa" else none
  remotes := fun n => n = "origin"
  fetchOk := fun _ => true
  mergeBase := fun a b => if a = b then some a else none
  graphAheadBehind := fun a b => if a = b then some (0, 0) else none

/-- A repository whose "main" head `bb` sits one commit past `aa`; used on
both sides so the two heads are identical while a stale checkpoint still
records `aa`. -/
def repoStale : Repo where
  branches := fun n => if n = "main" then some "bb" else none
  remotes := fun n => n = "origin"
  fetchOk := fun _ => true
  mergeBase := fun a b => if a = b then some a else none
  graphAheadBehind := fun a b => if a = "bb" ∧ b = "aa" then some (1, 0)
    else if a = b then some (0, 0) else none

/-- A repository in which the checkpoint commits `aa` and `bb` have been
garbage-collected (their merge base fails) while the current heads `cc`
and `dd` still have one. -/
def repoGc : Repo where
  branches := fun n => if n = "main" then some "cc" else none
  remotes := fun n => n = "origin"
  fetchOk := fun _ => true
  mergeBase := fun a b => if a = "cc" ∧ b = "dd" then some "cc" else none
  graphAheadBehind := fun a b => if a = b then some (0, 0) else none

/-- A repository with no local branch at all (in particular no "main"). -/
def repoNoMain : Repo where
  branches := fun _ => none
  remotes := fun n => n = "origin"
  fetchOk := fun _ => true
  mergeBase := fun _ _ => none
  graphAheadBehind := fun _ _ => none

/-- A world in which no path opens a repository and no state file exists. -/
def worldEmpty : World where
  openRepo := fun _ => none
  stateFile := fun _ => none

/-- C9 helper: two repositories agree on everything `run` may consult —
the "main" branch head, the "origin" remote, fetch behaviour, and the
commit-graph oracles. -/
def RepoAgree (r r' : Repo) : Prop :=
  r.branches "main" = r'.branches "main"
  ∧ r.remotes "origin" = r'.remotes "origin"
  ∧ r.fetchOk "origin" = r'.fetchOk "origin"
  ∧ r.mergeBase = r'.mergeBase
  ∧ r.graphAheadBehind = r'.graphAheadBehind

/-! Helper lemmas shared by the claim theorems. -/

/-- Once both fetches succeed, both heads resolve, the base resolves and
both ahead counts are available, `run` is exactly the four-way decision on
`(source_ahead, target_ahead)`. -/
theorem run_after_analysis
    (eng : SyncEngine) (file : Option FileContent)
    (source_head target_head base_oid : Oid) (sa sb ta tb : Nat)
    (hfs : fetch_repo eng.source_repo = Except.ok ())
    (hft : fetch_repo eng.target_repo = Except.ok ())
    (hsh : eng.source_repo.branches "main" = some source_head)
    (hth : eng.target_repo.branches "main" = some target_head)
    (hbase : eng.find_sync_base source_head target_head = Except.ok base_oid)
    (hsa : eng.source_repo.graphAheadBehind source_head base_oid = some (sa, sb))
    (hta : eng.target_repo.graphAheadBehind target_head base_oid = some (ta, tb)) :
    eng.run file =
      if sa > 0 ∧ ta > 0 then
        ⟨Except.error "Repositories have diverged! Manual intervention required.",
          eng.state, file, []⟩
      else if sa > 0 then
        ⟨Except.ok "Sync from source to target not yet implemented.",
          ⟨some source_head, some source_head⟩,
          some (FileContent.parsable ⟨some source_head, some source_head⟩), []⟩
      else if ta > 0 then
        ⟨Except.ok "Sync from target to source not yet implemented.",
          ⟨some target_head, some target_head⟩,
          some (FileContent.parsable ⟨some target_head, some target_head⟩), []⟩
      else
        ⟨Except.ok "Repositories are already in sync.", eng.state, file, []⟩ := by
  simp only [SyncEngine.run, hfs, hft, hsh, hth, hbase, hsa, hta, save_state]

/-- A successful `fetch_repo` implies the "origin" remote exists. -/
theorem fetch_repo_ok_remotes (r : Repo) (h : fetch_repo r = Except.ok ()) :
    r.remotes "origin" = true := by
  by_contra hc
  have hb : r.remotes "origin" = false := by
    cases hv : r.remotes "origin"
    · rfl
    · exact absurd hv hc
  simp [fetch_repo, hb] at h

/-- Every early-error path of `run` (missing "main" branch or missing
"origin" remote on either side) returns an error without touching the
state file or the in-memory state. -/
theorem run_error_unchanged (eng : SyncEngine) (file : Option FileContent)
    (h : eng.source_repo.branches "main" = none
      ∨ eng.source_repo.remotes "origin" = false
      ∨ eng.target_repo.branches "main" = none
      ∨ eng.target_repo.remotes "origin" = false) :
    (∃ e, (eng.run file).result = Except.error e)
      ∧ (eng.run file).file = file ∧ (eng.run file).state = eng.state := by
  rcases hfs : fetch_repo eng.source_repo with e | u
  · simp only [SyncEngine.run, hfs]
    exact ⟨⟨_, rfl⟩, trivial, trivial⟩
  · cases u
    rcases hft : fetch_repo eng.target_repo with e | u
    · simp only [SyncEngine.run, hfs, hft]
      exact ⟨⟨_, rfl⟩, trivial, trivial⟩
    · cases u
      rcases h with h | h | h | h
      · simp only [SyncEngine.run, hfs, hft, h]
        exact ⟨⟨_, rfl⟩, trivial, trivial⟩
      · rw [fetch_repo_ok_remotes eng.source_repo hfs] at h
        exact absurd h (by simp)
      · rcases hsh : eng.source_repo.branches "main" with _ | shead
        · simp only [SyncEngine.run, hfs, hft, hsh]
          exact ⟨⟨_, rfl⟩, trivial, trivial⟩
        · simp only [SyncEngine.run, hfs, hft, hsh, h]
          exact ⟨⟨_, rfl⟩, trivial, trivial⟩
      · rw [fetch_repo_ok_remotes eng.target_repo hft] at h
        exact absurd h (by simp)

/-- C1: once both fetches succeed, both heads resolve and the base
resolves, the outcome of `run` is decided by `(source_ahead, target_ahead)`:
`(0, 0)` gives the in-sync success message, `(n>0, 0)` a success message
beginning "Sync from source to target", `(0, n>0)` a success message
beginning "Sync from target to source", and `(m>0, n>0)` the divergence
error string. -/
theorem run_outcome_decided_by_ahead_pair
    (eng : SyncEngine) (file : Option FileContent)
    (source_head target_head base_oid : Oid) (sa sb ta tb : Nat)
    (hfs : fetch_repo eng.source_repo = Except.ok ())
    (hft : fetch_repo eng.target_repo = Except.ok ())
    (hsh : eng.source_repo.branches "main" = some source_head)
    (hth : eng.target_repo.branches "main" = some target_head)
    (hbase : eng.find_sync_base source_head target_head = Except.ok base_oid)
    (hsa : eng.source_repo.graphAheadBehind source_head base_oid = some (sa, sb))
    (hta : eng.target_repo.graphAheadBehind target_head base_oid = some (ta, tb)) :
    (sa = 0 → ta = 0 →
      (eng.run file).result = Except.ok "Repositories are already in sync.")
    ∧ (0 < sa → ta = 0 →
      ∃ rest, (eng.run file).result = Except.ok ("Sync from source to target" ++ rest))
    ∧ (sa = 0 → 0 < ta →
      ∃ rest, (eng.run file).result = Except.ok ("Sync from target to source" ++ rest))
    ∧ (0 < sa → 0 < ta →
      (eng.run file).result
        = Except.error "Repositories have diverged! Manual intervention required.") := by
  rw [run_after_analysis eng file source_head target_head base_oid sa sb ta tb
    hfs hft hsh hth hbase hsa hta]
  refine ⟨?_, ?_, ?_, ?_⟩
  · intro h1 h2
    rw [if_neg (by omega), if_neg (by omega), if_neg (by omega)]
  · intro h1 h2
    rw [if_neg (by omega), if_pos (by omega : sa > 0)]
    exact ⟨" not yet implemented.", rfl⟩
  · intro h1 h2
    rw [if_neg (by omega), if_neg (by omega), if_pos (by omega : ta > 0)]
    exact ⟨" not yet implemented.", rfl⟩
  · intro h1 h2
    rw [if_pos (⟨h1, h2⟩ : sa > 0 ∧ ta > 0)]

/-- C1 witness: on the concrete forward fixture (source one commit ahead),
`run` returns a success message beginning "Sync from source to target". -/
theorem run_outcome_decided_by_ahead_pair_witness :
    ∃ rest, (SyncEngine.run ⟨repoFwdSrc, repoFwdTgt, ⟨none, none⟩⟩ none).result
      = Except.ok ("Sync from source to target" ++ rest) :=
  (run_outcome_decided_by_ahead_pair ⟨repoFwdSrc, repoFwdTgt, ⟨none, none⟩⟩ none
      "bb" "aa" "aa" 1 0 0 0 rfl rfl rfl rfl rfl rfl rfl).2.1 (by omega) rfl

/-- C2: when both sides are ahead, `run` returns the divergence error,
applies no convergence action, and leaves both the in-memory state and the
on-disk state file exactly as they were. -/
theorem run_diverged_terminal
    (eng : SyncEngine) (file : Option FileContent)
    (source_head target_head base_oid : Oid) (sa sb ta tb : Nat)
    (hfs : fetch_repo eng.source_repo = Except.ok ())
    (hft : fetch_repo eng.target_repo = Except.ok ())
    (hsh : eng.source_repo.branches "main" = some source_head)
    (hth : eng.target_repo.branches "main" = some target_head)
    (hbase : eng.find_sync_base source_head target_head = Except.ok base_oid)
    (hsa : eng.source_repo.graphAheadBehind source_head base_oid = some (sa, sb))
    (hta : eng.target_repo.graphAheadBehind target_head base_oid = some (ta, tb))
    (hsa' : 0 < sa) (hta' : 0 < ta) :
    (eng.run file).result
      = Except.error "Repositories have diverged! Manual intervention required."
    ∧ (eng.run file).applied = []
    ∧ (eng.run file).state = eng.state
    ∧ (eng.run file).file = file := by
  rw [run_after_analysis eng file source_head target_head base_oid sa sb ta tb
    hfs hft hsh hth hbase hsa hta]
  rw [if_pos (⟨hsa', hta'⟩ : sa > 0 ∧ ta > 0)]
  exact ⟨rfl, rfl, rfl, rfl⟩

/-- C2 witness: the stale-checkpoint fixture makes both sides one commit
ahead of the resolved base; `run` errors and changes nothing. -/
theorem run_diverged_terminal_witness :
    (SyncEngine.run ⟨repoStale, repoStale, ⟨some "aa", some "aa"⟩⟩ none).result
      = Except.error "Repositories have diverged! Manual intervention required."
    ∧ (SyncEngine.run ⟨repoStale, repoStale, ⟨some "aa", some "aa"⟩⟩ none).applied = []
    ∧ (SyncEngine.run ⟨repoStale, repoStale, ⟨some "aa", some "aa"⟩⟩ none).state
        = SyncState.mk (some "aa") (some "aa")
    ∧ (SyncEngine.run ⟨repoStale, repoStale, ⟨some "aa", some "aa"⟩⟩ none).file = none :=
  run_diverged_terminal ⟨repoStale, repoStale, ⟨some "aa", some "aa"⟩⟩ none
    "bb" "bb" "aa" 1 0 1 0 rfl rfl rfl rfl rfl rfl rfl (by omega) (by omega)

/-- C3 (code behaviour at the failing input): with a fully-set checkpoint
whose saved commits have no merge base (garbage-collected), the engine
returns the saved-OID error instead of falling back, although the merge
base of the current heads exists. -/
theorem find_sync_base_errors_without_fallback :
    SyncEngine.find_sync_base ⟨repoGc, repoGc, ⟨some "aa", some "bb"⟩⟩ "cc" "dd"
      = Except.error ("Could not find merge base for saved OIDs "
          ++ "aa" ++ " and " ++ "bb" ++ ". Have the branches been rebased?")
    ∧ repoGc.mergeBase "cc" "dd" = some "cc" := ⟨rfl, rfl⟩

/-- C4 counterexample: a present-but-unparsable state file makes engine
construction fail, contradicting the claim that loading never fails. -/
theorem new_fails_on_unparsable_state_file :
    SyncEngine.new (some repoFwdSrc) (some repoFwdTgt) (some FileContent.unparsable)
      = Except.error "failed to parse sync state file" := rfl

/-- C4 amended: loading yields the default checkpoint only when the file
is absent; a parsable file yields its contents, and an unparsable file
fails engine construction with the parse error. -/
theorem load_state_defaults_only_when_absent :
    loadState none = Except.ok SyncState.default
    ∧ (∀ src tgt : Repo, SyncEngine.new (some src) (some tgt) none
        = Except.ok ⟨src, tgt, SyncState.default⟩)
    ∧ (∀ st : SyncState, loadState (some (FileContent.parsable st)) = Except.ok st)
    ∧ (∀ src tgt : Repo,
        SyncEngine.new (some src) (some tgt) (some FileContent.unparsable)
          = Except.error "failed to parse sync state file") :=
  ⟨rfl, fun _ _ => rfl, fun _ => rfl, fun _ _ => rfl⟩

/-- C5 (code behaviour at the failing input): on a forward run the engine
transfers no commit (`applied = []`, the apply step is an unimplemented
TODO) yet still rewrites the on-disk checkpoint, which was absent before
the run. -/
theorem run_records_sync_without_applying :
    (SyncEngine.run ⟨repoFwdSrc, repoFwdTgt, ⟨none, none⟩⟩ none).applied = []
    ∧ (SyncEngine.run ⟨repoFwdSrc, repoFwdTgt, ⟨none, none⟩⟩ none).file
        = some (FileContent.parsable ⟨some "bb", some "bb"⟩)
    ∧ (SyncEngine.run ⟨repoFwdSrc, repoFwdTgt, ⟨none, none⟩⟩ none).result
        = Except.ok "Sync from source to target not yet implemented." :=
  ⟨rfl, rfl, rfl⟩

/-- C6: after a forward sync both checkpoint fields (in memory and on
disk) equal the source head; after a reverse sync both equal the target
head. -/
theorem run_applied_checkpoint_both_heads
    (eng : SyncEngine) (file : Option FileContent)
    (source_head target_head base_oid : Oid) (sa sb ta tb : Nat)
    (hfs : fetch_repo eng.source_repo = Except.ok ())
    (hft : fetch_repo eng.target_repo = Except.ok ())
    (hsh : eng.source_repo.branches "main" = some source_head)
    (hth : eng.target_repo.branches "main" = some target_head)
    (hbase : eng.find_sync_base source_head target_head = Except.ok base_oid)
    (hsa : eng.source_repo.graphAheadBehind source_head base_oid = some (sa, sb))
    (hta : eng.target_repo.graphAheadBehind target_head base_oid = some (ta, tb)) :
    (0 < sa → ta = 0 →
      (eng.run file).state = ⟨some source_head, some source_head⟩
      ∧ (eng.run file).file
          = some (FileContent.parsable ⟨some source_head, some source_head⟩))
    ∧ (sa = 0 → 0 < ta →
      (eng.run file).state = ⟨some target_head, some target_head⟩
      ∧ (eng.run file).file
          = some (FileContent.parsable ⟨some target_head, some target_head⟩)) := by
  rw [run_after_analysis eng file source_head target_head base_oid sa sb ta tb
    hfs hft hsh hth hbase hsa hta]
  constructor
  · intro h1 h2
    rw [if_neg (by omega), if_pos (by omega : sa > 0)]
    exact ⟨rfl, rfl⟩
  · intro h1 h2
    rw [if_neg (by omega), if_neg (by omega), if_pos (by omega : ta > 0)]
    exact ⟨rfl, rfl⟩

/-- C6 witness: the concrete forward fixture records both sides at the
source head `bb`, in memory and on disk. -/
theorem run_applied_checkpoint_both_heads_witness :
    (SyncEngine.run ⟨repoFwdSrc, repoFwdTgt, ⟨none, none⟩⟩ none).state
        = SyncState.mk (some "bb") (some "bb")
    ∧ (SyncEngine.run ⟨repoFwdSrc, repoFwdTgt, ⟨none, none⟩⟩ none).file
        = some (FileContent.parsable (SyncState.mk (some "bb") (some "bb"))) :=
  (run_applied_checkpoint_both_heads ⟨repoFwdSrc, repoFwdTgt, ⟨none, none⟩⟩ none
      "bb" "aa" "aa" 1 0 0 0 rfl rfl rfl rfl rfl rfl rfl).1 (by omega) rfl

/-- C7: a checkpoint with exactly one field set is ignored —
`find_sync_base` behaves exactly as on the empty-checkpoint path, taking
the merge base of the current heads. -/
theorem find_sync_base_ignores_partial_checkpoint
    (eng : SyncEngine) (source_oid target_oid : Oid)
    (h : (eng.state.last_source_synced_oid = none
            ∧ eng.state.last_target_synced_oid ≠ none)
       ∨ (eng.state.last_source_synced_oid ≠ none
            ∧ eng.state.last_target_synced_oid = none)) :
    eng.find_sync_base source_oid target_oid
      = SyncEngine.find_sync_base ⟨eng.source_repo, eng.target_repo, SyncState.default⟩
          source_oid target_oid
    ∧ eng.find_sync_base source_oid target_oid
      = (match eng.source_repo.mergeBase source_oid target_oid with
         | some base => Except.ok base
         | none => Except.error "no merge base between current heads") := by
  have hred : eng.find_sync_base source_oid target_oid
      = (match eng.source_repo.mergeBase source_oid target_oid with
         | some base => Except.ok base
         | none => Except.error "no merge base between current heads") := by
    rcases h with ⟨h1, _⟩ | ⟨_, h2⟩
    · simp only [SyncEngine.find_sync_base, h1]
    · rcases hv : eng.state.last_source_synced_oid with _ | x
      · simp only [SyncEngine.find_sync_base, hv]
      · simp only [SyncEngine.find_sync_base, hv, h2]
  exact ⟨hred.trans rfl, hred⟩

/-- C7 witness: with only the source field set, the base is the merge
base `aa` of the current heads, matching the empty-checkpoint path. -/
theorem find_sync_base_ignores_partial_checkpoint_witness :
    SyncEngine.find_sync_base ⟨repoFwdSrc, repoFwdTgt, ⟨some "aa", none⟩⟩ "bb" "aa"
        = SyncEngine.find_sync_base ⟨repoFwdSrc, repoFwdTgt, SyncState.default⟩ "bb" "aa"
    ∧ SyncEngine.find_sync_base ⟨repoFwdSrc, repoFwdTgt, ⟨some "aa", none⟩⟩ "bb" "aa"
        = Except.ok "aa" := by
  have h := find_sync_base_ignores_partial_checkpoint
    ⟨repoFwdSrc, repoFwdTgt, ⟨some "aa", none⟩⟩ "bb" "aa"
    (Or.inr ⟨by simp, rfl⟩)
  exact ⟨h.1, h.2.trans rfl⟩

/-- C8 counterexample: both repositories have the identical head `bb`,
but the stale fully-set checkpoint (`aa` on both sides) resolves the base
to `aa`, so `run` returns the divergence error rather than the up-to-date
outcome. -/
theorem run_identical_heads_diverged_on_stale_checkpoint :
    repoStale.branches "main" = some "bb"
    ∧ (SyncEngine.run ⟨repoStale, repoStale, ⟨some "aa", some "aa"⟩⟩
        (some (FileContent.parsable ⟨some "aa", some "aa"⟩))).result
      = Except.error "Repositories have diverged! Manual intervention required." :=
  ⟨rfl, rfl⟩

/-- C8 amended: with identical heads and a checkpoint that is not fully
set, given git's guarantees that a commit is its own merge base and is
zero commits ahead of itself, `run` yields the up-to-date outcome and
changes neither the in-memory state nor the state file; a stale fully-set
checkpoint can instead produce the divergence error. -/
theorem run_identical_heads_uptodate
    (eng : SyncEngine) (file : Option FileContent) (h0 : Oid)
    (hfs : fetch_repo eng.source_repo = Except.ok ())
    (hft : fetch_repo eng.target_repo = Except.ok ())
    (hsh : eng.source_repo.branches "main" = some h0)
    (hth : eng.target_repo.branches "main" = some h0)
    (hnotfull : eng.state.last_source_synced_oid = none
      ∨ eng.state.last_target_synced_oid = none)
    (hmb : eng.source_repo.mergeBase h0 h0 = some h0)
    (hsa : eng.source_repo.graphAheadBehind h0 h0 = some (0, 0))
    (hta : eng.target_repo.graphAheadBehind h0 h0 = some (0, 0)) :
    (eng.run file).result = Except.ok "Repositories are already in sync."
    ∧ (eng.run file).state = eng.state
    ∧ (eng.run file).file = file := by
  have hbase : eng.find_sync_base h0 h0 = Except.ok h0 := by
    rcases hnotfull with h1 | h2
    · simp only [SyncEngine.find_sync_base, h1, hmb]
    · rcases hv : eng.state.last_source_synced_oid with _ | x
      · simp only [SyncEngine.find_sync_base, hv, hmb]
      · simp only [SyncEngine.find_sync_base, hv, h2, hmb]
  rw [run_after_analysis eng file h0 h0 h0 0 0 0 0 hfs hft hsh hth hbase hsa hta]
  norm_num

/-- C8 witness: identical heads `aa` with the empty checkpoint give the
up-to-date outcome and leave the (absent) state file absent. -/
theorem run_identical_heads_uptodate_witness :
    (SyncEngine.run ⟨repoFwdTgt, repoFwdTgt, SyncState.default⟩ none).result
      = Except.ok "Repositories are already in sync."
    ∧ (SyncEngine.run ⟨repoFwdTgt, repoFwdTgt, SyncState.default⟩ none).file = none :=
  have h := run_identical_heads_uptodate ⟨repoFwdTgt, repoFwdTgt, SyncState.default⟩
    none "aa" rfl rfl rfl rfl (Or.inl rfl) rfl rfl rfl
  ⟨h.1, h.2.2⟩

/-- C9: `run` consults only the "main" branch and the "origin" remote of
either repository — its entire result is unchanged when everything else
about the repositories varies — and when the "main" branch or the
"origin" remote is missing on either side it returns an error without
writing the state file or changing the in-memory state. -/
theorem run_uses_only_main_and_origin
    (eng eng' : SyncEngine) (file : Option FileContent)
    (hs : RepoAgree eng.source_repo eng'.source_repo)
    (ht : RepoAgree eng.target_repo eng'.target_repo)
    (hst : eng.state = eng'.state) :
    eng.run file = eng'.run file
    ∧ (eng.source_repo.branches "main" = none
        ∨ eng.source_repo.remotes "origin" = false
        ∨ eng.target_repo.branches "main" = none
        ∨ eng.target_repo.remotes "origin" = false →
      (∃ e, (eng.run file).result = Except.error e)
        ∧ (eng.run file).file = file ∧ (eng.run file).state = eng.state) := by
  obtain ⟨a1, a2, a3, a4, a5⟩ := hs
  obtain ⟨b1, b2, b3, b4, b5⟩ := ht
  refine ⟨?_, run_error_unchanged eng file⟩
  simp only [SyncEngine.run, fetch_repo, SyncEngine.find_sync_base,
    a1, a2, a3, a4, a5, b1, b2, b3, b4, b5, hst]

/-- C9 witness: with no "main" branch anywhere, `run` errors and leaves
the absent state file absent. -/
theorem run_uses_only_main_and_origin_witness :
    (∃ e, (SyncEngine.run ⟨repoNoMain, repoNoMain, SyncState.default⟩ none).result
      = Except.error e)
    ∧ (SyncEngine.run ⟨repoNoMain, repoNoMain, SyncState.default⟩ none).file = none :=
  have h := run_uses_only_main_and_origin
    ⟨repoNoMain, repoNoMain, SyncState.default⟩
    ⟨repoNoMain, repoNoMain, SyncState.default⟩ none
    ⟨rfl, rfl, rfl, rfl, rfl⟩ ⟨rfl, rfl, rfl, rfl, rfl⟩ rfl
  ⟨(h.2 (Or.inl rfl)).1, (h.2 (Or.inl rfl)).2.1⟩

/-- C10: the entry point rejects any argument list whose length is not
exactly 2 with the usage error, touching nothing; with exactly two
arguments it constructs the engine from the two paths and the source-side
state file and executes `run`, the state-file write landing at the source
path. -/
theorem handle_run_sync_arity
    (w : World) (args : List String) :
    (args.length ≠ 2 →
      handle_run_sync w args
        = (Except.error "Usage: sync-run <path_to_source_repo> <path_to_target_repo>",
            w.stateFile))
    ∧ (∀ s t, args = [s, t] →
      handle_run_sync w args
        = match SyncEngine.new (w.openRepo s) (w.openRepo t) (w.stateFile s) with
          | Except.error e =>
            (Except.error ("Failed to initialize sync engine: " ++ e), w.stateFile)
          | Except.ok eng =>
            ((eng.run (w.stateFile s)).result,
              fun p => if p = s then (eng.run (w.stateFile s)).file else w.stateFile p)) := by
  constructor
  · intro h
    match args with
    | [] => rfl
    | [a] => rfl
    | [a, b] => exact absurd rfl h
    | a :: b :: c :: rest => rfl
  · intro s t h
    subst h
    rfl

/-- C10 witness: the empty argument list draws the usage error leaving
the world untouched, and a two-element list reaches engine construction
(here failing to open the source repository). -/
theorem handle_run_sync_arity_witness :
    handle_run_sync worldEmpty []
      = (Except.error "Usage: sync-run <path_to_source_repo> <path_to_target_repo>",
          worldEmpty.stateFile)
    ∧ handle_run_sync worldEmpty ["a", "b"]
      = (Except.error ("Failed to initialize sync engine: "
          ++ "failed to open source repository"), worldEmpty.stateFile) :=
  have h1 := handle_run_sync_arity worldEmpty []
  have h2 := handle_run_sync_arity worldEmpty ["a", "b"]
  ⟨h1.1 (by decide), (h2.2 "a" "b" rfl).trans rfl⟩
